import Mathlib

/-!
Shallow embedding of the feedback store of `src/server/storage.ts` together
with the submission validator of `src/shared/schema.ts`.

Conventions of the embedding:
* timestamps are natural numbers counting milliseconds since the Unix epoch
  (JavaScript `Date.getTime()`);
* a `dateKey` is the UTC day number `t / 86400000`; the code stores the
  `YYYY-MM-DD` rendering of this number (`toISOString().split('T')[0]`),
  which is an injective image of it, so equality of keys is preserved;
* rating values are rationals: JavaScript numbers with `z.number()` carry no
  integrality constraint, and none of the verified properties depends on
  floating-point rounding of the stored values;
* Mongo documents become entries of explicit lists, `findOne`/`findById`
  become `List.find?`, and a `save` of a found document writes back through
  its `_id`.
-/

namespace ShreeRath

/-- Dine type enumeration (`dineType` enum of the schemas). -/
inductive DineType
  | dine_in
  | take_out
deriving DecidableEq

/-- The six rating sub-scores of a visit. -/
structure Ratings where
  foodQuality : ℚ
  foodTaste : ℚ
  staffBehavior : ℚ
  hygiene : ℚ
  ambience : ℚ
  serviceSpeed : ℚ
deriving DecidableEq

/-- Default ratings object used by `mapDocument` when a legacy flat document
has no `ratings` field. -/
def allFiveRatings : Ratings := ⟨5, 5, 5, 5, 5, 5⟩

/-- Milliseconds per UTC calendar day. -/
def msPerDay : Nat := 86400000

/-- UTC day number of a timestamp: the `dateKey` of
`now.toISOString().split('T')[0]` up to the injective `YYYY-MM-DD`
rendering. -/
def dayOf (t : Nat) : Nat := t / msPerDay

/-- A visit subdocument as persisted by `VisitSchema`.  The three optional
strings may be absent on documents written by other code paths; the mongoose
defaults make them `""` on documents written through `createFeedback`. -/
structure StoredVisit where
  location : String
  dineType : DineType
  ratings : Ratings
  note : Option String
  staffName : Option String
  staffComment : Option String
  createdAt : Nat
  dateKey : Nat
deriving DecidableEq

/-- A feedback document as stored, including the flat legacy fields that
`mapDocument` recognises on documents from the old single-visit schema. -/
structure FeedbackDoc where
  docId : Nat
  name : String
  phoneNumber : String
  visits : List StoredVisit
  contactedAt : Option Nat
  contactedBy : Option String
  legacyLocation : Option String
  legacyDineType : Option DineType
  legacyRatings : Option Ratings
  legacyNote : Option String
  legacyStaffName : Option String
  legacyStaffComment : Option String
  legacyCreatedAt : Option Nat
  legacyDateKey : Option Nat
deriving DecidableEq

/-- A visit as returned by `mapDocument` (all optional strings defaulted). -/
structure MappedVisit where
  location : String
  dineType : DineType
  ratings : Ratings
  note : String
  staffName : String
  staffComment : String
  createdAt : Nat
  dateKey : Nat
deriving DecidableEq

/-- The API-facing `Feedback` shape produced by `mapDocument`. -/
structure Feedback where
  docId : Nat
  name : String
  phoneNumber : String
  contactedAt : Option Nat
  contactedBy : Option String
  visits : List MappedVisit
deriving DecidableEq

/-- The customer card document of `CustomerCardSchema`. -/
structure CustomerCard where
  phoneNumber : String
  name : String
  totalVisits : Nat
  firstVisitDate : Nat
  lastVisitDate : Nat
  visits : List Nat
deriving DecidableEq

/-- Whole store: the two Mongo collections plus a fresh-id counter standing
for Mongo's generation of new `_id`s. -/
structure StoreState where
  feedbacks : List FeedbackDoc
  cards : List CustomerCard
  nextId : Nat
deriving DecidableEq

/-- JavaScript `x || ""` on a possibly-absent string. -/
def strOrDefault : Option String → String
  | some s => s
  | none => ""

/-- JavaScript truthiness of a possibly-absent string (absent and `""` are
falsy). -/
def strTruthy : Option String → Bool
  | some s => s != ""
  | none => false

/-- JavaScript `s || null` on a possibly-absent string (used for
`contactedBy` in `mapDocument`). -/
def normStrOpt : Option String → Option String
  | some s => if s = "" then none else some s
  | none => none

/-- The visit `mapDocument` synthesizes from the flat legacy fields when a
document has an empty `visits` array but a truthy flat `location`. -/
def legacyVisit (now : Nat) (d : FeedbackDoc) : MappedVisit where
  location := strOrDefault d.legacyLocation
  dineType := d.legacyDineType.getD DineType.dine_in
  ratings := d.legacyRatings.getD allFiveRatings
  note := strOrDefault d.legacyNote
  staffName := strOrDefault d.legacyStaffName
  staffComment := strOrDefault d.legacyStaffComment
  createdAt := d.legacyCreatedAt.getD now
  dateKey :=
    match d.legacyDateKey with
    | some k => k
    | none =>
      match d.legacyCreatedAt with
      | some t => dayOf t
      | none => dayOf now

/-- Normalisation of one stored visit by `mapDocument`'s final `visits.map`. -/
def mapVisit (v : StoredVisit) : MappedVisit where
  location := v.location
  dineType := v.dineType
  ratings := v.ratings
  note := strOrDefault v.note
  staffName := strOrDefault v.staffName
  staffComment := strOrDefault v.staffComment
  createdAt := v.createdAt
  dateKey := v.dateKey

/-- The `mapDocument` private method: converts a stored document to the API
shape, synthesizing a single visit from the flat legacy fields when the
`visits` array is empty and the flat `location` is truthy.  The final
normalising map of the code is the identity on the synthesized visit, whose
optional fields are already defaulted. -/
def mapDocument (now : Nat) (d : FeedbackDoc) : Feedback where
  docId := d.docId
  name := d.name
  phoneNumber := d.phoneNumber
  contactedAt := d.contactedAt
  contactedBy := normStrOpt d.contactedBy
  visits :=
    if d.visits.isEmpty && strTruthy d.legacyLocation then [legacyVisit now d]
    else d.visits.map mapVisit

/-- A validated submission (`InsertFeedback` after zod parsing, optional
fields defaulted to `""`). -/
structure InsertFeedback where
  name : String
  phoneNumber : String
  location : String
  dineType : DineType
  ratings : Ratings
  note : String
  staffName : String
  staffComment : String
deriving DecidableEq

/-- The customer-card summary echoed by `createFeedback`. -/
structure CardSummary where
  totalVisits : Nat
  firstVisitDate : Nat
  lastVisitDate : Nat
deriving DecidableEq

/-- Result object of `createFeedback` (`{feedback, customerCard}`). -/
structure CreateResult where
  feedback : Feedback
  customerCard : Option CardSummary
deriving DecidableEq

/-- The error `createFeedback` throws (with Mongo code 11000, mapped to HTTP
409 by the route) when the phone number already has a visit dated today. -/
inductive CreateErr
  | duplicateSubmission
deriving DecidableEq

/-- Replace the first element satisfying `p` (a single-document Mongo write
back through `_id`). -/
def updateFirst (p : α → Bool) (f : α → α) : List α → List α
  | [] => []
  | x :: xs => if p x then f x :: xs else x :: updateFirst p f xs

/-- Lookup `FeedbackModel.findOne({phoneNumber})`. -/
def findFeedbackByPhone (s : StoreState) (p : String) : Option FeedbackDoc :=
  s.feedbacks.find? (fun d => d.phoneNumber == p)

/-- Lookup `CustomerCardModel.findOne({phoneNumber})`. -/
def findCardByPhone (s : StoreState) (p : String) : Option CustomerCard :=
  s.cards.find? (fun c => c.phoneNumber == p)

/-- The visit object built at the top of `createFeedback`. -/
def newVisit (i : InsertFeedback) (now : Nat) : StoredVisit where
  location := i.location
  dineType := i.dineType
  ratings := i.ratings
  note := some i.note
  staffName := some i.staffName
  staffComment := some i.staffComment
  createdAt := now
  dateKey := dayOf now

/-- A fresh document created by the not-found branch of `createFeedback`. -/
def newFeedbackDoc (i : InsertFeedback) (now : Nat) (nid : Nat) : FeedbackDoc where
  docId := nid
  name := i.name
  phoneNumber := i.phoneNumber
  visits := [newVisit i now]
  contactedAt := none
  contactedBy := none
  legacyLocation := none
  legacyDineType := none
  legacyRatings := none
  legacyNote := none
  legacyStaffName := none
  legacyStaffComment := none
  legacyCreatedAt := none
  legacyDateKey := none

/-- The customer-card half of `createFeedback` (runs after the feedback
write; `fb` is the saved document). -/
def finishCard (i : InsertFeedback) (now : Nat) (fb : FeedbackDoc)
    (s : StoreState) : CreateResult × StoreState :=
  match findCardByPhone s i.phoneNumber with
  | some card =>
    let card2 : CustomerCard :=
      { card with
        totalVisits := card.totalVisits + 1
        lastVisitDate := now
        visits :=
          if card.visits.contains fb.docId then card.visits
          else card.visits ++ [fb.docId] }
    (⟨mapDocument now fb,
      some ⟨card2.totalVisits, card2.firstVisitDate, card2.lastVisitDate⟩⟩,
     { s with
       cards := updateFirst (fun c => c.phoneNumber == i.phoneNumber)
         (fun _ => card2) s.cards })
  | none =>
    let card2 : CustomerCard :=
      { phoneNumber := i.phoneNumber, name := i.name, totalVisits := 1
        firstVisitDate := now, lastVisitDate := now, visits := [fb.docId] }
    (⟨mapDocument now fb,
      some ⟨card2.totalVisits, card2.firstVisitDate, card2.lastVisitDate⟩⟩,
     { s with cards := s.cards ++ [card2] })

/-- The `createFeedback` operation.  The duplicate-day check throws before
any write, so the error branch returns the state unchanged. -/
def createFeedback (i : InsertFeedback) (now : Nat) (s : StoreState) :
    Except CreateErr CreateResult × StoreState :=
  let visit := newVisit i now
  match findFeedbackByPhone s i.phoneNumber with
  | some fb =>
    if fb.visits.any (fun v => v.dateKey == dayOf now) then
      (Except.error CreateErr.duplicateSubmission, s)
    else
      let fb2 : FeedbackDoc := { fb with visits := fb.visits ++ [visit] }
      let s1 : StoreState :=
        { s with
          feedbacks := updateFirst (fun d => d.docId == fb.docId)
            (fun _ => fb2) s.feedbacks }
      let r := finishCard i now fb2 s1
      (Except.ok r.1, r.2)
  | none =>
    let fb2 := newFeedbackDoc i now s.nextId
    let s1 : StoreState :=
      { s with feedbacks := s.feedbacks ++ [fb2], nextId := s.nextId + 1 }
    let r := finishCard i now fb2 s1
    (Except.ok r.1, r.2)

/-- Filter arguments of `getFeedback` (`rating` is accepted and parsed by the
route but, as proved below, never read). -/
structure ListFilters where
  page : Nat
  limit : Nat
  search : Option String
  date : Option Nat
  rating : Option Nat
deriving DecidableEq

/-- Result shape of `getFeedback`. -/
structure ListResult where
  data : List Feedback
  total : Nat
deriving DecidableEq

/-- Case-folded character list of a string (the `$options: 'i'` regex flag). -/
def lowerChars (s : String) : List Char := s.data.map Char.toLower

/-- Whether `pat` is an initial segment of `l`. -/
def leadsWith : List Char → List Char → Bool
  | [], _ => true
  | _ :: _, [] => false
  | a :: as, b :: bs => a == b && leadsWith as bs

/-- Whether `pat` occurs contiguously inside `l`. -/
def containsSub (pat : List Char) : List Char → Bool
  | [] => pat.isEmpty
  | c :: tl => leadsWith pat (c :: tl) || containsSub pat tl

/-- The `$or` search clause: case-insensitive substring match against `name`
or `phoneNumber` (the `$regex` of the code, restricted to literal
patterns). -/
def searchMatches (q : String) (d : FeedbackDoc) : Bool :=
  containsSub (lowerChars q) (lowerChars d.name) ||
    containsSub (lowerChars q) (lowerChars d.phoneNumber)

/-- The Mongo query object of `getFeedback`: optional search clause and the
optional `visits.dateKey` equality (satisfied when some array element has the
key). -/
def matchesQuery (f : ListFilters) (d : FeedbackDoc) : Bool :=
  (match f.search with
   | some q => searchMatches q d
   | none => true) &&
  (match f.date with
   | some dk => d.visits.any (fun v => v.dateKey == dk)
   | none => true)

/-- Sort key of `sort({"visits.createdAt": -1})`: for a descending sort Mongo
compares array fields by their maximum element. -/
def maxCreatedAt (d : FeedbackDoc) : Nat :=
  d.visits.foldl (fun a v => max a v.createdAt) 0

/-- The sorted query result (most recent visit first). -/
def sortDocs (l : List FeedbackDoc) : List FeedbackDoc :=
  l.mergeSort (fun a b => maxCreatedAt b ≤ maxCreatedAt a)

/-- Documents matching the query (`find(query)` and `countDocuments(query)`
range over this list). -/
def rawMatches (f : ListFilters) (s : StoreState) : List FeedbackDoc :=
  s.feedbacks.filter (matchesQuery f)

/-- The mapped result list `data.map(doc => this.mapDocument(doc))`. -/
def mappedResults (now : Nat) (f : ListFilters) (s : StoreState) :
    List Feedback :=
  (sortDocs (rawMatches f s)).map (mapDocument now)

/-- Restrict a mapped document's visits to those of one date. -/
def restrictVisits (dk : Nat) (fb : Feedback) : Feedback :=
  { fb with visits := fb.visits.filter (fun v => v.dateKey == dk) }

/-- The date-filtered result list: visits narrowed to the filter date, then
documents left with no visit dropped. -/
def dateFilteredResults (now : Nat) (dk : Nat) (f : ListFilters)
    (s : StoreState) : List Feedback :=
  ((mappedResults now f s).map (restrictVisits dk)).filter
    (fun fb => decide (0 < fb.visits.length))

/-- The `getFeedback` operation: query, sort, map, optional per-date visit
narrowing, then pagination by `slice(skip, skip + limit)`; `total` is the
length of the already-filtered list when date-filtering and the raw
`countDocuments` result otherwise.  The route guarantees `page ≥ 1`. -/
def getFeedback (now : Nat) (f : ListFilters) (s : StoreState) : ListResult :=
  let results :=
    match f.date with
    | some dk => dateFilteredResults now dk f s
    | none => mappedResults now f s
  let skip := (f.page - 1) * f.limit
  { data := (results.drop skip).take f.limit
    total :=
      match f.date with
      | some _ => results.length
      | none => (rawMatches f s).length }

/-- The update object of `markContacted`'s `findByIdAndUpdate`. -/
def contactApply (u : String) (t : Nat) (d : FeedbackDoc) : FeedbackDoc :=
  { d with contactedBy := some u, contactedAt := some t }

/-- The `markContacted` operation: single-document update by `_id`, `none`
(mapped to HTTP 404) when no document has the id. -/
def markContacted (id : Nat) (u : String) (t : Nat) (s : StoreState) :
    Option Feedback × StoreState :=
  match s.feedbacks.find? (fun d => d.docId == id) with
  | none => (none, s)
  | some d =>
    (some (mapDocument t (contactApply u t d)),
     { s with
       feedbacks := updateFirst (fun x => x.docId == id) (contactApply u t)
         s.feedbacks })

/-- Analytics period. -/
inductive Period
  | week
  | month
deriving DecidableEq

/-- One entry of `weeklyTrends`. -/
structure TrendEntry where
  date : Nat
  foodQuality : ℚ
  foodTaste : ℚ
  staffBehavior : ℚ
  hygiene : ℚ
  ambience : ℚ
  serviceSpeed : ℚ
deriving DecidableEq

/-- One entry of `categoryPerformance`. -/
structure CategoryPerf where
  category : String
  rating : ℚ
deriving DecidableEq

/-- One entry of `feedbackVolume`. -/
structure VolumeEntry where
  name : String
  value : Nat
deriving DecidableEq

/-- The `AnalyticsData` response shape. -/
structure AnalyticsData where
  totalFeedback : Nat
  averageRating : ℚ
  responseRate : ℤ
  topCategory : String
  weeklyTrends : List TrendEntry
  categoryPerformance : List CategoryPerf
  feedbackVolume : List VolumeEntry
deriving DecidableEq

/-- Window start `now − 7·day` resp. `now − 30·day` (the code's
`setDate(getDate() - n)` day arithmetic). -/
def windowStart (period : Period) (now : Nat) : Nat :=
  now - (if period = Period.week then 7 else 30) * msPerDay

/-- The `$unwind`/`$match` stage: one row per in-window visit, paired with
its parent document. -/
def unwoundInWindow (start : Nat) (s : StoreState) :
    List (FeedbackDoc × StoredVisit) :=
  s.feedbacks.flatMap
    (fun d => (d.visits.filter (fun v => decide (start ≤ v.createdAt))).map
      (fun v => (d, v)))

/-- Group-stage `$avg` of one rating selector over a row list; the code's
`result.avgX || 0` default applies when the group is empty. -/
def avgOf (sel : Ratings → ℚ) (l : List (FeedbackDoc × StoredVisit)) : ℚ :=
  if l.length = 0 then 0
  else (l.map (fun pr => sel pr.2.ratings)).sum / (l.length : ℚ)

/-- The six category averages of the window. -/
def avgRatings (l : List (FeedbackDoc × StoredVisit)) : Ratings where
  foodQuality := avgOf Ratings.foodQuality l
  foodTaste := avgOf Ratings.foodTaste l
  staffBehavior := avgOf Ratings.staffBehavior l
  hygiene := avgOf Ratings.hygiene l
  ambience := avgOf Ratings.ambience l
  serviceSpeed := avgOf Ratings.serviceSpeed l

/-- `Object.entries(averages)` in insertion order. -/
def averagesList (a : Ratings) : List (String × ℚ) :=
  [(("foodQuality"), a.foodQuality), (("foodTaste"), a.foodTaste),
   (("staffBehavior"), a.staffBehavior), (("hygiene"), a.hygiene),
   (("ambience"), a.ambience), (("serviceSpeed"), a.serviceSpeed)]

/-- The top-category loop body: running best name and value, `val > maxVal`
comparison. -/
def pickTopAux : String → ℚ → List (String × ℚ) → String
  | t, _, [] => t
  | t, m, (c, v) :: rest =>
    if m < v then pickTopAux c v rest else pickTopAux t m rest

/-- The top-category loop with its initial state
`topCategory = 'foodQuality'`, `maxVal = -1`. -/
def topCategoryOf (l : List (String × ℚ)) : String :=
  pickTopAux ("foodQuality") (-1) l

/-- The regex replacement `replace(/([A-Z])/g, ' $1')`. -/
def splitCaps : List Char → List Char
  | [] => []
  | c :: tl =>
    if c.isUpper then ' ' :: c :: splitCaps tl else c :: splitCaps tl

/-- String trim (only plain spaces can occur here). -/
def trimSpaces (l : List Char) : List Char :=
  ((l.dropWhile (fun c => c == ' ')).reverse.dropWhile
    (fun c => c == ' ')).reverse

/-- Rendering of a camelCase category name:
`replace(/([A-Z])/g, ' $1').trim().toLowerCase()`. -/
def camelToLabel (s : String) : String :=
  String.mk ((trimSpaces (splitCaps s.data)).map Char.toLower)

/-- JavaScript `Math.round` on the non-negative rationals arising here. -/
def jsRound (q : ℚ) : ℤ := ⌊q + 1 / 2⌋

/-- `Number(x.toFixed(1))` on the non-negative rationals arising here
(abstracting the exact float representation). -/
def toFixed1 (q : ℚ) : ℚ := (jsRound (q * 10) : ℚ) / 10

/-- Distinct in-window days, ascending (`$group` by
`$dateToString "%Y-%m-%d"` plus `$sort: {_id: 1}`). -/
def trendDays (l : List (FeedbackDoc × StoredVisit)) : List Nat :=
  ((l.map (fun pr => dayOf pr.2.createdAt)).dedup).mergeSort
    (fun a b => a ≤ b)

/-- One `weeklyTrends` entry: the per-day category averages rounded to one
decimal. -/
def trendFor (l : List (FeedbackDoc × StoredVisit)) (d : Nat) : TrendEntry :=
  let dayRows := l.filter (fun pr => dayOf pr.2.createdAt == d)
  let a := avgRatings dayRows
  { date := d
    foodQuality := toFixed1 a.foodQuality
    foodTaste := toFixed1 a.foodTaste
    staffBehavior := toFixed1 a.staffBehavior
    hygiene := toFixed1 a.hygiene
    ambience := toFixed1 a.ambience
    serviceSpeed := toFixed1 a.serviceSpeed }

/-- The `getAnalytics` operation. -/
def getAnalytics (period : Period) (now : Nat) (s : StoreState) :
    AnalyticsData :=
  let start := windowStart period now
  let rows := unwoundInWindow start s
  let total := rows.length
  let contacted := (rows.filter (fun pr => pr.1.contactedAt.isSome)).length
  let a := avgRatings rows
  let overallAvg :=
    (a.foodQuality + a.foodTaste + a.staffBehavior + a.hygiene + a.ambience +
      a.serviceSpeed) / 6
  { totalFeedback := total
    averageRating := toFixed1 overallAvg
    responseRate :=
      if 0 < total then jsRound ((contacted : ℚ) / (total : ℚ) * 100) else 0
    topCategory := camelToLabel (topCategoryOf (averagesList a))
    weeklyTrends := (trendDays rows).map (trendFor rows)
    categoryPerformance := (averagesList a).map (fun p => ⟨p.1, p.2⟩)
    feedbackVolume :=
      [⟨("Contacted"), contacted⟩, ⟨("Pending"), total - contacted⟩] }

/-- Raw (unvalidated) submission body: `z.number()` fields are arbitrary
rationals, `dineType` an arbitrary string, the three optional strings
possibly absent. -/
structure RawInsert where
  name : String
  phoneNumber : String
  location : String
  dineType : String
  ratings : Ratings
  note : Option String
  staffName : Option String
  staffComment : Option String
deriving DecidableEq

/-- The phone-number rule `regex(/^\d{10}$/)`. -/
def phoneOk (p : String) : Bool :=
  p.length == 10 && p.data.all Char.isDigit

/-- One rating rule `z.number().min(1).max(5)` (note: no `.int()`). -/
def ratingOk (x : ℚ) : Bool := decide (1 ≤ x) && decide (x ≤ 5)

/-- The `ratings` object rule of `insertFeedbackSchema`. -/
def ratingsOk (r : Ratings) : Bool :=
  ratingOk r.foodQuality && ratingOk r.foodTaste && ratingOk r.staffBehavior &&
    ratingOk r.hygiene && ratingOk r.ambience && ratingOk r.serviceSpeed

/-- The `dineType` enum rule. -/
def parseDineType (s : String) : Option DineType :=
  if s = "dine_in" then some DineType.dine_in
  else if s = "take_out" then some DineType.take_out
  else none

/-- The `insertFeedbackSchema` zod parse; the error is the path of the first
offending field in declaration order (the route reports `err.errors[0]` with
HTTP 400). -/
def parseInsert (raw : RawInsert) : Except String InsertFeedback :=
  if raw.name.length == 0 then Except.error ("name")
  else if !phoneOk raw.phoneNumber then Except.error ("phoneNumber")
  else if raw.location.length == 0 then Except.error ("location")
  else
    match parseDineType raw.dineType with
    | none => Except.error ("dineType")
    | some dt =>
      if !ratingOk raw.ratings.foodQuality then
        Except.error ("ratings.foodQuality")
      else if !ratingOk raw.ratings.foodTaste then
        Except.error ("ratings.foodTaste")
      else if !ratingOk raw.ratings.staffBehavior then
        Except.error ("ratings.staffBehavior")
      else if !ratingOk raw.ratings.hygiene then
        Except.error ("ratings.hygiene")
      else if !ratingOk raw.ratings.ambience then
        Except.error ("ratings.ambience")
      else if !ratingOk raw.ratings.serviceSpeed then
        Except.error ("ratings.serviceSpeed")
      else if 500 < (strOrDefault raw.note).length then
        Except.error ("note")
      else
        Except.ok
          { name := raw.name, phoneNumber := raw.phoneNumber
            location := raw.location, dineType := dt, ratings := raw.ratings
            note := strOrDefault raw.note
            staffName := strOrDefault raw.staffName
            staffComment := strOrDefault raw.staffComment }

/-- Whether a parse succeeded. -/
def parseOk (raw : RawInsert) : Bool :=
  match parseInsert raw with
  | Except.ok _ => true
  | Except.error _ => false

/-- The rating bounds enforced by `VisitSchema` on every stored visit
(`min: 1, max: 5` on each sub-score). -/
def storeValidB (s : StoreState) : Bool :=
  s.feedbacks.all (fun d => d.visits.all (fun v => ratingsOk v.ratings))

/-- Specification-side first-argmax over an association list: the element of
highest value, earlier entries winning ties ("ties broken by first-declared
order"). -/
def firstArgmax : List (String × ℚ) → Option (String × ℚ)
  | [] => none
  | p :: rest =>
    match firstArgmax rest with
    | none => some p
    | some q => if p.2 < q.2 then some q else some p

theorem updateFirst_append_of_none {α : Type} (p : α → Bool) (f : α → α)
    (l1 l2 : List α) (h : ∀ x ∈ l1, p x = false) :
    updateFirst p f (l1 ++ l2) = l1 ++ updateFirst p f l2 := by
  induction l1 with
  | nil => rfl
  | cons a tl ih =>
    have ha : p a = false := h a (List.mem_cons_self a tl)
    simp only [List.cons_append, updateFirst, ha, Bool.false_eq_true,
      if_false, List.cons.injEq, true_and]
    exact ih (fun x hx => h x (List.mem_cons_of_mem a hx))

theorem find?_append_cons_of_none {α : Type} (p : α → Bool) (l1 l2 : List α)
    (d : α) (h : ∀ x ∈ l1, p x = false) (hd : p d = true) :
    (l1 ++ d :: l2).find? p = some d := by
  induction l1 with
  | nil => simp [List.find?_cons, hd]
  | cons a tl ih =>
    have ha : p a = false := h a (List.mem_cons_self a tl)
    simp only [List.cons_append, List.find?_cons, ha]
    exact ih (fun x hx => h x (List.mem_cons_of_mem a hx))

theorem find?_decomp {α : Type} {p : α → Bool} {l : List α} {d : α}
    (h : l.find? p = some d) :
    p d = true ∧
      ∃ l1 l2, l = l1 ++ d :: l2 ∧ (∀ x ∈ l1, p x = false) ∧
        ∀ f, updateFirst p f l = l1 ++ f d :: l2 := by
  induction l with
  | nil => simp at h
  | cons a tl ih =>
    by_cases ha : p a = true
    · rw [List.find?_cons_of_pos _ ha] at h
      obtain rfl : a = d := by injection h
      exact ⟨ha, [], tl, rfl, by simp, fun f => by simp [updateFirst, ha]⟩
    · have ha' : p a = false := by simpa using ha
      rw [List.find?_cons_of_neg _ (by simp [ha'])] at h
      obtain ⟨hd, l1, l2, hl, hnone, hupd⟩ := ih h
      refine ⟨hd, a :: l1, l2, by simp [hl], ?_, ?_⟩
      · intro x hx
        rcases List.mem_cons.mp hx with rfl | hx
        · exact ha'
        · exact hnone x hx
      · intro f
        simp [updateFirst, ha', hupd f]

theorem firstArgmax_eq_none {l : List (String × ℚ)} :
    firstArgmax l = none ↔ l = [] := by
  cases l with
  | nil => simp [firstArgmax]
  | cons p rest =>
    simp only [firstArgmax]
    cases firstArgmax rest with
    | none => simp
    | some q =>
      by_cases h : p.2 < q.2 <;> simp [h]

theorem pickTopAux_eq (l : List (String × ℚ)) :
    ∀ t m, pickTopAux t m l =
      (match firstArgmax l with
       | none => t
       | some q => if m < q.2 then q.1 else t) := by
  induction l with
  | nil => intro t m; rfl
  | cons p rest ih =>
    intro t m
    obtain ⟨c, v⟩ := p
    cases hfa : firstArgmax rest with
    | none =>
      by_cases h1 : m < v <;>
        simp [pickTopAux, firstArgmax, hfa, ih, h1]
    | some q =>
      by_cases h1 : m < v
      · by_cases h2 : v < q.2
        · have hm : m < q.2 := lt_trans h1 h2
          simp [pickTopAux, firstArgmax, hfa, ih, h1, h2, hm]
        · simp [pickTopAux, firstArgmax, hfa, ih, h1, h2]
      · by_cases h2 : v < q.2
        · simp [pickTopAux, firstArgmax, hfa, ih, h1, h2]
        · have hm : ¬ m < q.2 := fun hc =>
            h1 (lt_of_lt_of_le hc (le_of_not_lt h2))
          simp [pickTopAux, firstArgmax, hfa, ih, h1, h2, hm]

theorem firstArgmax_decomp {l : List (String × ℚ)} :
    ∀ {p : String × ℚ}, firstArgmax l = some p →
      ∃ l1 l2, l = l1 ++ p :: l2 ∧ (∀ x ∈ l, x.2 ≤ p.2) ∧
        ∀ x ∈ l1, x.2 < p.2 := by
  induction l with
  | nil => intro p h; simp [firstArgmax] at h
  | cons a rest ih =>
    intro p h
    simp only [firstArgmax] at h
    cases hfa : firstArgmax rest with
    | none =>
      rw [hfa] at h
      obtain rfl : a = p := by injection h
      obtain rfl : rest = [] := firstArgmax_eq_none.mp hfa
      exact ⟨[], [], rfl, by simp, by simp⟩
    | some q =>
      rw [hfa] at h
      replace h : (if a.2 < q.2 then some q else some a) = some p := h
      obtain ⟨l1, l2, hl, hmax, hfirst⟩ := ih hfa
      by_cases hcmp : a.2 < q.2
      · rw [if_pos hcmp] at h
        obtain rfl : q = p := by injection h
        refine ⟨a :: l1, l2, by simp [hl], ?_, ?_⟩
        · intro x hx
          rcases List.mem_cons.mp hx with rfl | hx
          · exact le_of_lt hcmp
          · exact hmax x hx
        · intro x hx
          rcases List.mem_cons.mp hx with rfl | hx
          · exact hcmp
          · exact hfirst x hx
      · rw [if_neg hcmp] at h
        obtain rfl : a = p := by injection h
        refine ⟨[], rest, rfl, ?_, by simp⟩
        intro x hx
        rcases List.mem_cons.mp hx with rfl | hx
        · exact le_refl _
        · exact le_trans (hmax x hx) (le_of_not_lt hcmp)

theorem firstArgmax_of_ne_nil {l : List (String × ℚ)} (h : l ≠ []) :
    ∃ q, firstArgmax l = some q := by
  cases hfa : firstArgmax l with
  | none => exact absurd (firstArgmax_eq_none.mp hfa) h
  | some q => exact ⟨q, rfl⟩

theorem mem_unwound {w : Nat} {s : StoreState} {pr : FeedbackDoc × StoredVisit}
    (h : pr ∈ unwoundInWindow w s) :
    pr.1 ∈ s.feedbacks ∧ pr.2 ∈ pr.1.visits := by
  simp only [unwoundInWindow, List.mem_flatMap, List.mem_map,
    List.mem_filter] at h
  obtain ⟨d, hd, v, ⟨hv, _⟩, rfl⟩ := h
  exact ⟨hd, hv⟩

theorem pairs_filter_length (d : FeedbackDoc) (xs : List StoredVisit) :
    ((xs.map (fun v => (d, v))).filter
        (fun pr => pr.1.contactedAt.isSome)).length
      = if d.contactedAt.isSome then xs.length else 0 := by
  induction xs with
  | nil => simp
  | cons v tl ih =>
    by_cases hp : d.contactedAt.isSome <;> simp [List.filter_cons, hp, ih]

theorem unwound_length (w : Nat) (s : StoreState) :
    (unwoundInWindow w s).length
      = (s.feedbacks.map
          (fun d => (d.visits.filter
            (fun v => decide (w ≤ v.createdAt))).length)).sum := by
  simp [unwoundInWindow, List.length_flatMap, Function.comp_def]

theorem flat_contacted_length (w : Nat) (l : List FeedbackDoc) :
    ((l.flatMap
        (fun d => (d.visits.filter (fun v => decide (w ≤ v.createdAt))).map
          (fun v => (d, v)))).filter
        (fun pr => pr.1.contactedAt.isSome)).length
      = (l.map
          (fun d =>
            if d.contactedAt.isSome then
              (d.visits.filter (fun v => decide (w ≤ v.createdAt))).length
            else 0)).sum := by
  induction l with
  | nil => simp
  | cons d tl ih =>
    rw [List.flatMap_cons, List.filter_append, List.length_append,
      pairs_filter_length, List.map_cons, List.sum_cons, ih]

theorem unwound_contacted_length (w : Nat) (s : StoreState) :
    ((unwoundInWindow w s).filter (fun pr => pr.1.contactedAt.isSome)).length
      = (s.feedbacks.map
          (fun d =>
            if d.contactedAt.isSome then
              (d.visits.filter (fun v => decide (w ≤ v.createdAt))).length
            else 0)).sum :=
  flat_contacted_length w s.feedbacks

theorem finishCard_feedbacks (i : InsertFeedback) (now : Nat)
    (fb : FeedbackDoc) (s : StoreState) :
    (finishCard i now fb s).2.feedbacks = s.feedbacks := by
  unfold finishCard
  cases findCardByPhone s i.phoneNumber <;> rfl

theorem finishCard_nextId (i : InsertFeedback) (now : Nat)
    (fb : FeedbackDoc) (s : StoreState) :
    (finishCard i now fb s).2.nextId = s.nextId := by
  unfold finishCard
  cases findCardByPhone s i.phoneNumber <;> rfl

theorem finishCard_fst_feedback (i : InsertFeedback) (now : Nat)
    (fb : FeedbackDoc) (s : StoreState) :
    (finishCard i now fb s).1.feedback = mapDocument now fb := by
  unfold finishCard
  cases findCardByPhone s i.phoneNumber <;> rfl

theorem createFeedback_not_found {s : StoreState} {i : InsertFeedback}
    {now : Nat} (h0 : findFeedbackByPhone s i.phoneNumber = none) :
    createFeedback i now s =
      (Except.ok (finishCard i now (newFeedbackDoc i now s.nextId)
          { s with
            feedbacks := s.feedbacks ++ [newFeedbackDoc i now s.nextId]
            nextId := s.nextId + 1 }).1,
       (finishCard i now (newFeedbackDoc i now s.nextId)
          { s with
            feedbacks := s.feedbacks ++ [newFeedbackDoc i now s.nextId]
            nextId := s.nextId + 1 }).2) := by
  simp only [createFeedback, h0]

theorem createFeedback_dup {s : StoreState} {i : InsertFeedback} {now : Nat}
    {fb : FeedbackDoc} (hf : findFeedbackByPhone s i.phoneNumber = some fb)
    (hdup : fb.visits.any (fun v => v.dateKey == dayOf now) = true) :
    createFeedback i now s = (Except.error CreateErr.duplicateSubmission, s) := by
  simp only [createFeedback, hf, hdup, if_true]

theorem createFeedback_found {s : StoreState} {i : InsertFeedback} {now : Nat}
    {fb : FeedbackDoc} (hf : findFeedbackByPhone s i.phoneNumber = some fb)
    (hdup : fb.visits.any (fun v => v.dateKey == dayOf now) = false) :
    createFeedback i now s =
      (Except.ok (finishCard i now
          ({ fb with visits := fb.visits ++ [newVisit i now] })
          { s with
            feedbacks := updateFirst (fun d => d.docId == fb.docId)
              (fun _ => { fb with visits := fb.visits ++ [newVisit i now] })
              s.feedbacks }).1,
       (finishCard i now ({ fb with visits := fb.visits ++ [newVisit i now] })
          { s with
            feedbacks := updateFirst (fun d => d.docId == fb.docId)
              (fun _ => { fb with visits := fb.visits ++ [newVisit i now] })
              s.feedbacks }).2) := by
  simp only [createFeedback, hf, hdup, Bool.false_eq_true, if_false]

theorem finishCard_card_none {s : StoreState} {i : InsertFeedback} {now : Nat}
    {fb : FeedbackDoc} (h : findCardByPhone s i.phoneNumber = none) :
    finishCard i now fb s =
      (⟨mapDocument now fb, some ⟨1, now, now⟩⟩,
       { s with
         cards := s.cards ++
           [⟨i.phoneNumber, i.name, 1, now, now, [fb.docId]⟩] }) := by
  simp only [finishCard, h]

theorem finishCard_card_found {s : StoreState} {i : InsertFeedback} {now : Nat}
    {fb : FeedbackDoc} {card : CustomerCard}
    (h : findCardByPhone s i.phoneNumber = some card) :
    finishCard i now fb s =
      (⟨mapDocument now fb,
        some ⟨card.totalVisits + 1, card.firstVisitDate, now⟩⟩,
       { s with
         cards := updateFirst (fun c => c.phoneNumber == i.phoneNumber)
           (fun _ =>
             { card with
               totalVisits := card.totalVisits + 1
               lastVisitDate := now
               visits :=
                 if card.visits.contains fb.docId then card.visits
                 else card.visits ++ [fb.docId] }) s.cards }) := by
  simp only [finishCard, h]

theorem avgOf_nonneg (sel : Ratings → ℚ) (l : List (FeedbackDoc × StoredVisit))
    (h : ∀ pr ∈ l, 0 ≤ sel pr.2.ratings) : 0 ≤ avgOf sel l := by
  unfold avgOf
  split
  · exact le_refl 0
  · apply div_nonneg
    · apply List.sum_nonneg
      intro x hx
      obtain ⟨pr, hpr, rfl⟩ := List.mem_map.mp hx
      exact h pr hpr
    · exact Nat.cast_nonneg _

/-- Claim C8: two invocations of `getFeedback` whose filter arguments differ
only in the `rating` field return identical data and total — the rating
query parameter is accepted and parsed by the route but has no effect on the
result. -/
theorem getFeedback_rating_independent (now : Nat) (s : StoreState)
    (f : ListFilters) (r1 r2 : Option Nat) :
    getFeedback now { f with rating := r1 } s
      = getFeedback now { f with rating := r2 } s := rfl

/-- Claim C6: `markContacted` fails with NotFound (`none`) exactly when no
document has the id; on an existing id it sets `contactedBy` to the given
name and `contactedAt` to the current time, and a second invocation
overwrites both previous values. -/
theorem markContacted_spec (s : StoreState) (id : Nat) (u1 u2 : String)
    (t1 t2 : Nat) (hu1 : u1 ≠ "") (hu2 : u2 ≠ "") :
    (s.feedbacks.find? (fun x => x.docId == id) = none →
      markContacted id u1 t1 s = (none, s)) ∧
    ∀ d, s.feedbacks.find? (fun x => x.docId == id) = some d →
      ∃ fb1 s1 fb2 s2,
        markContacted id u1 t1 s = (some fb1, s1) ∧
        fb1.contactedBy = some u1 ∧ fb1.contactedAt = some t1 ∧
        markContacted id u2 t2 s1 = (some fb2, s2) ∧
        fb2.contactedBy = some u2 ∧ fb2.contactedAt = some t2 ∧
        (s2.feedbacks.find? (fun x => x.docId == id)).map
            (fun x => (x.contactedBy, x.contactedAt))
          = some (some u2, some t2) := by
  constructor
  · intro h
    simp [markContacted, h]
  · intro d hd
    obtain ⟨hpd, l1, l2, hl, hnone, hupd⟩ := find?_decomp hd
    have hm1 : markContacted id u1 t1 s =
        (some (mapDocument t1 (contactApply u1 t1 d)),
         { s with feedbacks := l1 ++ contactApply u1 t1 d :: l2 }) := by
      simp only [markContacted, hd, hupd]
    have hpd1 : ((contactApply u1 t1 d).docId == id) = true := hpd
    have hfind1 : (l1 ++ contactApply u1 t1 d :: l2).find?
        (fun x => x.docId == id) = some (contactApply u1 t1 d) :=
      find?_append_cons_of_none _ _ _ _ hnone hpd1
    have hupd1 : updateFirst (fun x => x.docId == id)
        (contactApply u2 t2) (l1 ++ contactApply u1 t1 d :: l2)
        = l1 ++ contactApply u2 t2 (contactApply u1 t1 d) :: l2 := by
      rw [updateFirst_append_of_none _ _ _ _ hnone]
      simp [updateFirst, hpd1]
    have hm2 : markContacted id u2 t2
        ({ s with feedbacks := l1 ++ contactApply u1 t1 d :: l2 }) =
        (some (mapDocument t2 (contactApply u2 t2 (contactApply u1 t1 d))),
         { s with
           feedbacks := l1 ++ contactApply u2 t2 (contactApply u1 t1 d) :: l2 }) := by
      simp only [markContacted]
      rw [hfind1, hupd1]
    refine ⟨_, _, _, _, hm1, ?_, rfl, hm2, ?_, rfl, ?_⟩
    · simp [mapDocument, contactApply, normStrOpt, hu1]
    · simp [mapDocument, contactApply, normStrOpt, hu2]
    · have hpd2 : ((contactApply u2 t2 (contactApply u1 t1 d)).docId == id)
          = true := hpd
      rw [find?_append_cons_of_none _ _ _ _ hnone hpd2]
      rfl

/-- Sample store for the `markContacted` witnesses: one document with
id 5 and one recorded visit. -/
def w6doc : FeedbackDoc :=
  ⟨5, "Asha", "9123456789",
   [⟨"Shree Rath", DineType.dine_in, ⟨5, 4, 5, 5, 4, 5⟩, some "", some "",
     some "", 0, 0⟩],
   none, none, none, none, none, none, none, none, none, none⟩

/-- Store containing only `w6doc`. -/
def w6store : StoreState := ⟨[w6doc], [], 6⟩

theorem markContacted_spec_witness :
    ("Ravi" : String) ≠ "" ∧ ("Meera" : String) ≠ "" ∧
    ∃ fb1 s1 fb2 s2,
      markContacted 5 ("Ravi") 100 w6store = (some fb1, s1) ∧
      fb1.contactedBy = some ("Ravi") ∧ fb1.contactedAt = some 100 ∧
      markContacted 5 ("Meera") 200 s1 = (some fb2, s2) ∧
      fb2.contactedBy = some ("Meera") ∧ fb2.contactedAt = some 200 ∧
      (s2.feedbacks.find? (fun x => x.docId == 5)).map
          (fun x => (x.contactedBy, x.contactedAt))
        = some (some ("Meera"), some 200) :=
  ⟨by decide, by decide,
   (markContacted_spec w6store 5 ("Ravi") ("Meera") 100 200 (by decide)
     (by decide)).2 w6doc (by rfl)⟩

/-- Claim C10: `markContacted` on an existing id changes only that record's
`contactedBy` and `contactedAt`; its name, phone number and visits are
unchanged, every other feedback document is untouched, and the customer-card
collection is untouched. -/
theorem markContacted_frame (s : StoreState) (id : Nat) (u : String) (t : Nat)
    (d : FeedbackDoc)
    (h : s.feedbacks.find? (fun x => x.docId == id) = some d) :
    ∃ l1 l2,
      s.feedbacks = l1 ++ d :: l2 ∧
      (markContacted id u t s).2.feedbacks = l1 ++ contactApply u t d :: l2 ∧
      (markContacted id u t s).2.cards = s.cards ∧
      (contactApply u t d).name = d.name ∧
      (contactApply u t d).phoneNumber = d.phoneNumber ∧
      (contactApply u t d).visits = d.visits ∧
      (contactApply u t d).contactedBy = some u ∧
      (contactApply u t d).contactedAt = some t := by
  obtain ⟨hpd, l1, l2, hl, hnone, hupd⟩ := find?_decomp h
  refine ⟨l1, l2, hl, ?_, ?_, rfl, rfl, rfl, rfl, rfl⟩
  · simp only [markContacted, h, hupd]
  · simp only [markContacted, h]

/-- Sample document for the frame witness. -/
def w10doc : FeedbackDoc :=
  ⟨3, "Kiran", "9000000000",
   [⟨"Shree Rath", DineType.take_out, ⟨4, 4, 4, 4, 4, 4⟩, some "", some "",
     some "", 0, 0⟩],
   none, none, none, none, none, none, none, none, none, none⟩

/-- Store containing only `w10doc` plus one customer card. -/
def w10store : StoreState :=
  ⟨[w10doc], [⟨"9000000000", "Kiran", 1, 0, 0, [3]⟩], 4⟩

theorem markContacted_frame_witness :
    (w10store.feedbacks.find? (fun x => x.docId == 3) = some w10doc) ∧
    ∃ l1 l2,
      w10store.feedbacks = l1 ++ w10doc :: l2 ∧
      (markContacted 3 ("Ravi") 50 w10store).2.feedbacks
        = l1 ++ contactApply ("Ravi") 50 w10doc :: l2 ∧
      (markContacted 3 ("Ravi") 50 w10store).2.cards = w10store.cards ∧
      (contactApply ("Ravi") 50 w10doc).name = w10doc.name ∧
      (contactApply ("Ravi") 50 w10doc).phoneNumber = w10doc.phoneNumber ∧
      (contactApply ("Ravi") 50 w10doc).visits = w10doc.visits ∧
      (contactApply ("Ravi") 50 w10doc).contactedBy = some ("Ravi") ∧
      (contactApply ("Ravi") 50 w10doc).contactedAt = some 50 :=
  ⟨rfl, markContacted_frame w10store 3 ("Ravi") 50 w10doc rfl⟩

/-- Claim C1: once a first submission has created the feedback record for a
phone number, a second submit on the same UTC calendar date fails with
DuplicateSubmission, the store is returned unchanged (no partial write), and
the stored feedback keeps exactly one visit for that date. -/
theorem createFeedback_same_day_dup (s : StoreState) (i1 i2 : InsertFeedback)
    (t1 t2 : Nat)
    (h0 : findFeedbackByPhone s i1.phoneNumber = none)
    (hp : i2.phoneNumber = i1.phoneNumber)
    (hd : dayOf t2 = dayOf t1) :
    ∃ res1,
      (createFeedback i1 t1 s).1 = Except.ok res1 ∧
      createFeedback i2 t2 (createFeedback i1 t1 s).2
        = (Except.error CreateErr.duplicateSubmission,
           (createFeedback i1 t1 s).2) ∧
      (findFeedbackByPhone (createFeedback i1 t1 s).2 i1.phoneNumber).map
          (fun fb =>
            (fb.visits.filter (fun v => v.dateKey == dayOf t1)).length)
        = some 1 := by
  have h0' : s.feedbacks.find? (fun d => d.phoneNumber == i1.phoneNumber)
      = none := h0
  have hnone : ∀ x ∈ s.feedbacks, (x.phoneNumber == i1.phoneNumber) = false := by
    intro x hx
    simpa using List.find?_eq_none.mp h0' x hx
  rw [createFeedback_not_found h0]
  refine ⟨_, rfl, ?_, ?_⟩
  · have hfind : findFeedbackByPhone
        (finishCard i1 t1 (newFeedbackDoc i1 t1 s.nextId)
          { s with
            feedbacks := s.feedbacks ++ [newFeedbackDoc i1 t1 s.nextId]
            nextId := s.nextId + 1 }).2 i2.phoneNumber
        = some (newFeedbackDoc i1 t1 s.nextId) := by
      show ((finishCard i1 t1 (newFeedbackDoc i1 t1 s.nextId)
          { s with
            feedbacks := s.feedbacks ++ [newFeedbackDoc i1 t1 s.nextId]
            nextId := s.nextId + 1 }).2.feedbacks).find? _ = _
      rw [finishCard_feedbacks]
      exact find?_append_cons_of_none _ _ _ _
        (by simpa [hp] using hnone) (by simp [newFeedbackDoc, hp])
    have hdup : (newFeedbackDoc i1 t1 s.nextId).visits.any
        (fun v => v.dateKey == dayOf t2) = true := by
      simp [newFeedbackDoc, newVisit, hd]
    exact createFeedback_dup hfind hdup
  · have hfind : findFeedbackByPhone
        (finishCard i1 t1 (newFeedbackDoc i1 t1 s.nextId)
          { s with
            feedbacks := s.feedbacks ++ [newFeedbackDoc i1 t1 s.nextId]
            nextId := s.nextId + 1 }).2 i1.phoneNumber
        = some (newFeedbackDoc i1 t1 s.nextId) := by
      show ((finishCard i1 t1 (newFeedbackDoc i1 t1 s.nextId)
          { s with
            feedbacks := s.feedbacks ++ [newFeedbackDoc i1 t1 s.nextId]
            nextId := s.nextId + 1 }).2.feedbacks).find? _ = _
      rw [finishCard_feedbacks]
      exact find?_append_cons_of_none _ _ _ _ hnone
        (by simp [newFeedbackDoc])
    rw [hfind]
    simp [newFeedbackDoc, newVisit]

/-- The empty store (both collections empty). -/
def emptyStore : StoreState := ⟨[], [], 0⟩

/-- Sample validated submission used by several witnesses. -/
def wInsertA : InsertFeedback :=
  { name := "Asha", phoneNumber := "9123456789", location := "Shree Rath"
    dineType := DineType.dine_in, ratings := ⟨5, 4, 5, 5, 4, 5⟩
    note := "", staffName := "", staffComment := "" }

theorem createFeedback_same_day_dup_witness :
    (findFeedbackByPhone emptyStore wInsertA.phoneNumber = none) ∧
    (dayOf 1000 = dayOf 0) ∧
    ∃ res1,
      (createFeedback wInsertA 0 emptyStore).1 = Except.ok res1 ∧
      createFeedback wInsertA 1000 (createFeedback wInsertA 0 emptyStore).2
        = (Except.error CreateErr.duplicateSubmission,
           (createFeedback wInsertA 0 emptyStore).2) ∧
      (findFeedbackByPhone (createFeedback wInsertA 0 emptyStore).2
          wInsertA.phoneNumber).map
          (fun fb =>
            (fb.visits.filter (fun v => v.dateKey == dayOf 0)).length)
        = some 1 :=
  ⟨rfl, by decide,
   createFeedback_same_day_dup emptyStore wInsertA wInsertA 0 1000 rfl rfl
     (by decide)⟩

/-- Claim C4: submissions for one phone number on two different calendar
dates both succeed; afterwards the feedback has two visits and the customer
card has `totalVisits = 2`, `lastVisitDate` equal to the second timestamp,
and `firstVisitDate` still equal to the first. -/
theorem createFeedback_two_days (s : StoreState) (i1 i2 : InsertFeedback)
    (t1 t2 : Nat)
    (h0 : findFeedbackByPhone s i1.phoneNumber = none)
    (h0c : findCardByPhone s i1.phoneNumber = none)
    (hfresh : s.feedbacks.all (fun d => decide (d.docId < s.nextId)) = true)
    (hp : i2.phoneNumber = i1.phoneNumber)
    (hd : dayOf t1 ≠ dayOf t2) :
    ∃ res1 res2,
      (createFeedback i1 t1 s).1 = Except.ok res1 ∧
      (createFeedback i2 t2 (createFeedback i1 t1 s).2).1 = Except.ok res2 ∧
      (findFeedbackByPhone (createFeedback i2 t2 (createFeedback i1 t1 s).2).2
          i1.phoneNumber).map (fun fb => fb.visits.length) = some 2 ∧
      (findCardByPhone (createFeedback i2 t2 (createFeedback i1 t1 s).2).2
          i1.phoneNumber).map
          (fun c => (c.totalVisits, c.firstVisitDate, c.lastVisitDate))
        = some (2, t1, t2) ∧
      res2.customerCard = some ⟨2, t1, t2⟩ := by
  have h0' : s.feedbacks.find? (fun d => d.phoneNumber == i1.phoneNumber)
      = none := h0
  have hnone : ∀ x ∈ s.feedbacks, (x.phoneNumber == i1.phoneNumber) = false := by
    intro x hx
    simpa using List.find?_eq_none.mp h0' x hx
  have h0c' : s.cards.find? (fun c => c.phoneNumber == i1.phoneNumber)
      = none := h0c
  have hcnone : ∀ x ∈ s.cards, (x.phoneNumber == i1.phoneNumber) = false := by
    intro x hx
    simpa using List.find?_eq_none.mp h0c' x hx
  rw [createFeedback_not_found h0]
  have hcard1 : findCardByPhone
      ({ s with
         feedbacks := s.feedbacks ++ [newFeedbackDoc i1 t1 s.nextId]
         nextId := s.nextId + 1 } : StoreState) i1.phoneNumber = none := h0c
  rw [finishCard_card_none hcard1]
  set nfb := newFeedbackDoc i1 t1 s.nextId with hnfb
  set cardN : CustomerCard :=
    ⟨i1.phoneNumber, i1.name, 1, t1, t1, [nfb.docId]⟩ with hcardN
  set s2 : StoreState :=
    { s with
      feedbacks := s.feedbacks ++ [nfb]
      nextId := s.nextId + 1
      cards := s.cards ++ [cardN] } with hs2
  have hfeeds2 : s2.feedbacks = s.feedbacks ++ [nfb] := rfl
  have hfind2 : findFeedbackByPhone s2 i2.phoneNumber = some nfb := by
    show (s2.feedbacks).find? _ = _
    rw [hfeeds2]
    exact find?_append_cons_of_none _ _ _ _ (by simpa [hp] using hnone)
      (by simp [hnfb, newFeedbackDoc, hp])
  have hdup2 : nfb.visits.any (fun v => v.dateKey == dayOf t2) = false := by
    simp only [hnfb, newFeedbackDoc, newVisit, List.any_cons, List.any_nil,
      Bool.or_false]
    exact beq_eq_false_iff_ne.mpr hd
  rw [createFeedback_found hfind2 hdup2]
  set fb3 : FeedbackDoc := { nfb with visits := nfb.visits ++ [newVisit i2 t2] }
    with hfb3
  have hfreshnone : ∀ x ∈ s.feedbacks, (x.docId == nfb.docId) = false := by
    intro x hx
    have hlt : x.docId < s.nextId := by
      simpa using List.all_eq_true.mp hfresh x hx
    have : x.docId ≠ nfb.docId := by
      simp only [hnfb, newFeedbackDoc]
      exact Nat.ne_of_lt hlt
    exact beq_eq_false_iff_ne.mpr this
  have hupd3 : updateFirst (fun d => d.docId == nfb.docId) (fun _ => fb3)
      s2.feedbacks = s.feedbacks ++ [fb3] := by
    rw [hfeeds2, updateFirst_append_of_none _ _ _ _ hfreshnone]
    simp [updateFirst]
  set s3 : StoreState :=
    { s2 with
      feedbacks := updateFirst (fun d => d.docId == nfb.docId) (fun _ => fb3)
        s2.feedbacks } with hs3
  have hcards3 : s3.cards = s.cards ++ [cardN] := rfl
  have hcard3 : findCardByPhone s3 i2.phoneNumber = some cardN := by
    show (s3.cards).find? _ = _
    rw [hcards3]
    exact find?_append_cons_of_none _ _ _ _ (by simpa [hp] using hcnone)
      (by simp [hcardN, hp])
  rw [finishCard_card_found hcard3]
  set card3 : CustomerCard :=
    { cardN with
      totalVisits := cardN.totalVisits + 1
      lastVisitDate := t2
      visits :=
        if cardN.visits.contains fb3.docId then cardN.visits
        else cardN.visits ++ [fb3.docId] } with hcard3def
  refine ⟨_, _, rfl, rfl, ?_, ?_, rfl⟩
  · have key1 : List.find? (fun d => d.phoneNumber == i1.phoneNumber)
        s3.feedbacks = some fb3 := by
      rw [show s3.feedbacks = updateFirst (fun d => d.docId == nfb.docId)
          (fun _ => fb3) s2.feedbacks from rfl]
      rw [hupd3]
      exact find?_append_cons_of_none _ _ _ _ hnone
        (by simp [hfb3, hnfb, newFeedbackDoc])
    show Option.map (fun fb => fb.visits.length)
        (List.find? (fun d => d.phoneNumber == i1.phoneNumber) s3.feedbacks)
      = some 2
    rw [key1]
    simp [hfb3, hnfb, newFeedbackDoc]
  · have hcupd : updateFirst (fun c => c.phoneNumber == i2.phoneNumber)
        (fun _ => card3) s3.cards = s.cards ++ [card3] := by
      rw [hcards3, updateFirst_append_of_none _ _ _ _
        (by simpa [hp] using hcnone)]
      simp [updateFirst, hcardN, hp]
    have key2 : List.find? (fun c => c.phoneNumber == i1.phoneNumber)
        (updateFirst (fun c => c.phoneNumber == i2.phoneNumber)
          (fun _ => card3) s3.cards) = some card3 := by
      rw [hcupd]
      exact find?_append_cons_of_none _ _ _ _ hcnone
        (by simp [hcard3def, hcardN])
    show Option.map (fun c => (c.totalVisits, c.firstVisitDate, c.lastVisitDate))
        (List.find? (fun c => c.phoneNumber == i1.phoneNumber)
          (updateFirst (fun c => c.phoneNumber == i2.phoneNumber)
            (fun _ => card3) s3.cards))
      = some (2, t1, t2)
    rw [key2]
    simp [hcard3def, hcardN]

theorem createFeedback_two_days_witness :
    (findFeedbackByPhone emptyStore wInsertA.phoneNumber = none) ∧
    (findCardByPhone emptyStore wInsertA.phoneNumber = none) ∧
    (dayOf 0 ≠ dayOf msPerDay) ∧
    ∃ res1 res2,
      (createFeedback wInsertA 0 emptyStore).1 = Except.ok res1 ∧
      (createFeedback wInsertA msPerDay
          (createFeedback wInsertA 0 emptyStore).2).1 = Except.ok res2 ∧
      (findFeedbackByPhone (createFeedback wInsertA msPerDay
          (createFeedback wInsertA 0 emptyStore).2).2
          wInsertA.phoneNumber).map (fun fb => fb.visits.length) = some 2 ∧
      (findCardByPhone (createFeedback wInsertA msPerDay
          (createFeedback wInsertA 0 emptyStore).2).2
          wInsertA.phoneNumber).map
          (fun c => (c.totalVisits, c.firstVisitDate, c.lastVisitDate))
        = some (2, 0, msPerDay) ∧
      res2.customerCard = some ⟨2, 0, msPerDay⟩ :=
  ⟨rfl, rfl, by decide,
   createFeedback_two_days emptyStore wInsertA wInsertA 0 msPerDay rfl rfl
     rfl rfl (by decide)⟩

/-- One rating rule unfolded to its arithmetic meaning. -/
theorem ratingOk_iff {x : ℚ} : ratingOk x = true ↔ (1 ≤ x ∧ x ≤ 5) := by
  simp [ratingOk]

/-- The rational 3/2, written in normal form so that the kernel can
evaluate comparisons on it. -/
def threeHalves : ℚ := Rat.mk' 3 2 (by decide) (by decide)

/-- Raw submission whose `foodQuality` rating is the non-integral 3/2 but
which is otherwise valid. -/
def rawHalfRating : RawInsert :=
  { name := "Asha", phoneNumber := "9123456789", location := "Shree Rath"
    dineType := "dine_in", ratings := ⟨threeHalves, 5, 5, 5, 5, 5⟩
    note := none, staffName := none, staffComment := none }

/-- Claim C5 counterexample: the validator accepts a submission whose
`foodQuality` value 3/2 lies in [1,5] but is not an integer, so acceptance
is not restricted to integer ratings. -/
theorem parseInsert_accepts_nonintegral :
    parseOk rawHalfRating = true ∧
    rawHalfRating.ratings.foodQuality = threeHalves ∧
    threeHalves.den ≠ 1 :=
  ⟨by decide, rfl, by decide⟩

/-- With the non-rating fields valid, the parse outcome is exactly the
ratings check. -/
theorem parseOk_eq_ratingsOk (raw : RawInsert)
    (hn' : (raw.name.length == 0) = false)
    (hp : phoneOk raw.phoneNumber = true)
    (hl' : (raw.location.length == 0) = false)
    {dt : DineType} (hdt' : parseDineType raw.dineType = some dt)
    (hnote' : ¬ 500 < (strOrDefault raw.note).length) :
    parseOk raw = ratingsOk raw.ratings := by
  simp only [parseOk, parseInsert, hn', hp, hl', hdt', hnote', Bool.not_true,
    Bool.false_eq_true, if_false, ite_false, ite_true]
  split_ifs with h1 h2 h3 h4 h5 h6 <;>
    simp_all [ratingsOk]

/-- Claim C5 (amended): with the other fields valid, the validator accepts
exactly when every ratings sub-field lies in the inclusive numeric range
[1,5]; the boundaries 1 and 5 are accepted and 0 and 6 rejected, but
integrality is not required. -/
theorem parseInsert_ratings_range (raw : RawInsert)
    (hn : raw.name.length ≠ 0)
    (hp : phoneOk raw.phoneNumber = true)
    (hl : raw.location.length ≠ 0)
    (hdt : (parseDineType raw.dineType).isSome = true)
    (hnote : (strOrDefault raw.note).length ≤ 500) :
    parseOk raw = true ↔
      ((1 ≤ raw.ratings.foodQuality ∧ raw.ratings.foodQuality ≤ 5) ∧
       (1 ≤ raw.ratings.foodTaste ∧ raw.ratings.foodTaste ≤ 5) ∧
       (1 ≤ raw.ratings.staffBehavior ∧ raw.ratings.staffBehavior ≤ 5) ∧
       (1 ≤ raw.ratings.hygiene ∧ raw.ratings.hygiene ≤ 5) ∧
       (1 ≤ raw.ratings.ambience ∧ raw.ratings.ambience ≤ 5) ∧
       (1 ≤ raw.ratings.serviceSpeed ∧ raw.ratings.serviceSpeed ≤ 5)) := by
  obtain ⟨dt, hdt'⟩ := Option.isSome_iff_exists.mp hdt
  have hn' : (raw.name.length == 0) = false := by simpa using hn
  have hl' : (raw.location.length == 0) = false := by simpa using hl
  have hnote' : ¬ 500 < (strOrDefault raw.note).length := Nat.not_lt.mpr hnote
  rw [parseOk_eq_ratingsOk raw hn' hp hl' hdt' hnote']
  simp [ratingsOk, ratingOk, Bool.and_eq_true, decide_eq_true_eq, and_assoc]

/-- Fully valid raw submission for the validator witness. -/
def rawValidW5 : RawInsert :=
  { name := "Asha", phoneNumber := "9123456789", location := "Shree Rath"
    dineType := "take_out", ratings := ⟨1, 5, 3, 4, 2, 5⟩
    note := some ("good"), staffName := none, staffComment := none }

theorem parseInsert_ratings_range_witness :
    (rawValidW5.name.length ≠ 0) ∧
    (phoneOk rawValidW5.phoneNumber = true) ∧
    (rawValidW5.location.length ≠ 0) ∧
    ((parseDineType rawValidW5.dineType).isSome = true) ∧
    ((strOrDefault rawValidW5.note).length ≤ 500) ∧
    (parseOk rawValidW5 = true ↔
      ((1 ≤ rawValidW5.ratings.foodQuality ∧ rawValidW5.ratings.foodQuality ≤ 5) ∧
       (1 ≤ rawValidW5.ratings.foodTaste ∧ rawValidW5.ratings.foodTaste ≤ 5) ∧
       (1 ≤ rawValidW5.ratings.staffBehavior ∧
         rawValidW5.ratings.staffBehavior ≤ 5) ∧
       (1 ≤ rawValidW5.ratings.hygiene ∧ rawValidW5.ratings.hygiene ≤ 5) ∧
       (1 ≤ rawValidW5.ratings.ambience ∧ rawValidW5.ratings.ambience ≤ 5) ∧
       (1 ≤ rawValidW5.ratings.serviceSpeed ∧
         rawValidW5.ratings.serviceSpeed ≤ 5))) :=
  ⟨by decide, by decide, by decide, by decide, by decide,
   parseInsert_ratings_range rawValidW5 (by decide) (by decide) (by decide)
     (by decide) (by decide)⟩

/-- Contacted document holding two in-window visits, for the analytics
counterexample. -/
def c2doc : FeedbackDoc :=
  ⟨0, "N", "9000000001",
   [⟨"L", DineType.dine_in, ⟨4, 4, 4, 4, 4, 4⟩, some "", some "", some "",
     5 * msPerDay, 5⟩,
    ⟨"L", DineType.dine_in, ⟨4, 4, 4, 4, 4, 4⟩, some "", some "", some "",
     6 * msPerDay, 6⟩],
   some 0, some ("staff"), none, none, none, none, none, none, none, none⟩

/-- Store containing only `c2doc`. -/
def c2store : StoreState := ⟨[c2doc], [], 1⟩

/-- Claim C2 counterexample: with one contacted document holding two
in-window visits, the analytics `contacted` figure (the `Contacted` entry of
`feedbackVolume`) is 2 — the number of in-window visits of contacted
documents — while the number of feedback documents with `contactedAt` set
is 1, refuting the document-level reading. -/
theorem getAnalytics_contacted_cex :
    (getAnalytics Period.week (10 * msPerDay) c2store).totalFeedback = 2 ∧
    (getAnalytics Period.week (10 * msPerDay) c2store).feedbackVolume.head?
      = some ⟨("Contacted"), 2⟩ ∧
    (c2store.feedbacks.filter (fun d => d.contactedAt.isSome)).length = 1 :=
  ⟨rfl, rfl, rfl⟩

/-- Claim C2 (amended): for every store, `totalFeedback` equals the number
of in-window visits, and the `contacted` figure equals the number of
in-window visits belonging to documents with `contactedAt` set — the count
is visit-level like `totalFeedback`, not document-level. -/
theorem getAnalytics_counts (period : Period) (now : Nat) (s : StoreState) :
    (getAnalytics period now s).totalFeedback
      = (s.feedbacks.map
          (fun d => (d.visits.filter
            (fun v => decide (windowStart period now ≤ v.createdAt))).length)).sum ∧
    (getAnalytics period now s).feedbackVolume
      = [⟨("Contacted"),
          (s.feedbacks.map
            (fun d =>
              if d.contactedAt.isSome then
                (d.visits.filter
                  (fun v => decide (windowStart period now ≤ v.createdAt))).length
              else 0)).sum⟩,
         ⟨("Pending"),
          (unwoundInWindow (windowStart period now) s).length
            - (s.feedbacks.map
                (fun d =>
                  if d.contactedAt.isSome then
                    (d.visits.filter
                      (fun v =>
                        decide (windowStart period now ≤ v.createdAt))).length
                  else 0)).sum⟩] := by
  constructor
  · show (unwoundInWindow (windowStart period now) s).length = _
    exact unwound_length _ s
  · show [(⟨("Contacted"),
        ((unwoundInWindow (windowStart period now) s).filter
          (fun pr => pr.1.contactedAt.isSome)).length⟩ : VolumeEntry),
      ⟨("Pending"),
        (unwoundInWindow (windowStart period now) s).length
          - ((unwoundInWindow (windowStart period now) s).filter
              (fun pr => pr.1.contactedAt.isSome)).length⟩] = _
    rw [unwound_contacted_length]

/-- Legacy flat-schema document: empty `visits`, flat `location`, no
`ratings` object. -/
def c9doc : FeedbackDoc :=
  ⟨0, "Old", "9000000000", [], none, none, some ("Old Place"), none, none,
   none, none, none, none, none⟩

/-- Store containing only the legacy document `c9doc`. -/
def c9store : StoreState := ⟨[c9doc], [], 1⟩

/-- Submission for the same phone number as `c9doc`. -/
def c9insert : InsertFeedback :=
  { name := "Asha", phoneNumber := "9000000000", location := "Shree Rath"
    dineType := DineType.dine_in, ratings := ⟨4, 4, 4, 4, 4, 4⟩
    note := "", staffName := "", staffComment := "" }

/-- Claim C9 counterexample: submitting against a stored legacy document
(empty `visits`, flat location "Old Place") makes `createFeedback` return
the freshly appended visit built from the submission — location
"Shree Rath" and the submitted ratings — not a visit synthesized from the
flat fields, because the append happens before `mapDocument` runs. -/
theorem createFeedback_legacy_cex :
    ((createFeedback c9insert (10 * msPerDay) c9store).1.map
        (fun r => r.feedback.visits.map (fun v => (v.location, v.ratings))))
      = Except.ok [(("Shree Rath"), (⟨4, 4, 4, 4, 4, 4⟩ : Ratings))] ∧
    c9doc.visits = [] ∧
    c9doc.legacyLocation = some ("Old Place") ∧
    (legacyVisit (10 * msPerDay) c9doc).location = "Old Place" ∧
    ("Shree Rath" : String) ≠ "Old Place" :=
  ⟨rfl, rfl, rfl, rfl, by decide⟩

/-- Claim C9 (amended): a stored document with empty `visits` and a truthy
flat `location` is returned by `mapDocument` — hence by the `getFeedback`
and `markContacted` read paths — with a single visit synthesized from the
flat fields, whose six ratings default to 5 when the document has no legacy
`ratings` object; `createFeedback`, by contrast, appends the submission's
visit before mapping, so its return carries the appended visit instead. -/
theorem mapDocument_legacy_synthesis (now : Nat) (d : FeedbackDoc)
    (hv : d.visits = []) (hl : strTruthy d.legacyLocation = true) :
    (mapDocument now d).visits = [legacyVisit now d] ∧
    (d.legacyRatings = none → (legacyVisit now d).ratings = allFiveRatings) ∧
    (legacyVisit now d).location = strOrDefault d.legacyLocation ∧
    (∀ u t, (mapDocument t (contactApply u t d)).visits
      = [legacyVisit t (contactApply u t d)]) ∧
    (∀ u t s, s.feedbacks.find? (fun x => x.docId == d.docId) = some d →
      ((markContacted d.docId u t s).1).map (fun fb => fb.visits)
        = some [legacyVisit t (contactApply u t d)]) ∧
    (∀ (f : ListFilters) (s : StoreState), d ∈ rawMatches f s →
      mapDocument now d ∈ mappedResults now f s) := by
  refine ⟨?_, ?_, rfl, ?_, ?_, ?_⟩
  · simp [mapDocument, hv, hl]
  · intro h
    simp [legacyVisit, h, allFiveRatings]
  · intro u t
    simp [mapDocument, contactApply, hv, hl]
  · intro u t s hfind
    have hvis : (mapDocument t (contactApply u t d)).visits
        = [legacyVisit t (contactApply u t d)] := by
      simp [mapDocument, contactApply, hv, hl]
    simp [markContacted, hfind, hvis]
  · intro f s hmem
    refine List.mem_map.mpr ⟨d, ?_, rfl⟩
    show d ∈ (rawMatches f s).mergeSort _
    exact List.mem_mergeSort.mpr hmem

theorem mapDocument_legacy_synthesis_witness :
    (c9doc.visits = []) ∧ (strTruthy c9doc.legacyLocation = true) ∧
    ((mapDocument 7 c9doc).visits = [legacyVisit 7 c9doc] ∧
     (c9doc.legacyRatings = none →
       (legacyVisit 7 c9doc).ratings = allFiveRatings) ∧
     (legacyVisit 7 c9doc).location = strOrDefault c9doc.legacyLocation ∧
     (∀ u t, (mapDocument t (contactApply u t c9doc)).visits
       = [legacyVisit t (contactApply u t c9doc)]) ∧
     (∀ u t s, s.feedbacks.find? (fun x => x.docId == c9doc.docId) = some c9doc →
       ((markContacted c9doc.docId u t s).1).map (fun fb => fb.visits)
         = some [legacyVisit t (contactApply u t c9doc)]) ∧
     (∀ (f : ListFilters) (s : StoreState), c9doc ∈ rawMatches f s →
       mapDocument 7 c9doc ∈ mappedResults 7 f s)) :=
  ⟨rfl, rfl, mapDocument_legacy_synthesis 7 c9doc rfl rfl⟩

/-- Every unwound row of a schema-valid store has in-range ratings. -/
theorem storeValid_rows {s : StoreState} (hs : storeValidB s = true) {w : Nat}
    {pr : FeedbackDoc × StoredVisit} (hpr : pr ∈ unwoundInWindow w s) :
    ratingsOk pr.2.ratings = true := by
  obtain ⟨hd, hv⟩ := mem_unwound hpr
  have hs' : s.feedbacks.all (fun d => d.visits.all
      (fun v => ratingsOk v.ratings)) = true := hs
  have h1 := List.all_eq_true.mp hs' pr.1 hd
  exact List.all_eq_true.mp h1 pr.2 hv

/-- Claim C7: `topCategory` is the rendered name of the category whose
in-window mean is highest, earlier-declared categories winning ties (every
entry is bounded by the winner, and all entries before it are strictly
below), rendered by splitting the camelCase name into space-separated
lower-case words. -/
theorem getAnalytics_topCategory (period : Period) (now : Nat) (s : StoreState)
    (hs : storeValidB s = true) :
    ∃ (p : String × ℚ) (l1 l2 : List (String × ℚ)),
      averagesList (avgRatings (unwoundInWindow (windowStart period now) s))
        = l1 ++ p :: l2 ∧
      (∀ x ∈ averagesList
          (avgRatings (unwoundInWindow (windowStart period now) s)),
        x.2 ≤ p.2) ∧
      (∀ x ∈ l1, x.2 < p.2) ∧
      (getAnalytics period now s).topCategory = camelToLabel p.1 ∧
      (averagesList
          (avgRatings (unwoundInWindow (windowStart period now) s))).map
          (fun q => camelToLabel q.1)
        = [("food quality"), ("food taste"), ("staff behavior"), ("hygiene"),
           ("ambience"), ("service speed")] := by
  set rows := unwoundInWindow (windowStart period now) s with hrows
  set a := avgRatings rows with ha
  have hne : averagesList a ≠ [] := by simp [averagesList]
  obtain ⟨q, hq⟩ := firstArgmax_of_ne_nil hne
  obtain ⟨l1, l2, hdec, hmax, hfirst⟩ := firstArgmax_decomp hq
  have h0fq : 0 ≤ a.foodQuality := by
    rw [ha]
    show 0 ≤ avgOf Ratings.foodQuality rows
    apply avgOf_nonneg
    intro pr hpr
    have hro : ratingsOk pr.2.ratings = true :=
      storeValid_rows hs (hrows ▸ hpr)
    have h1 : ratingOk pr.2.ratings.foodQuality = true := by
      simp only [ratingsOk, Bool.and_eq_true] at hro
      exact hro.1.1.1.1.1
    exact le_trans (by norm_num) (ratingOk_iff.mp h1).1
  have hfq_le : a.foodQuality ≤ q.2 :=
    hmax ⟨("foodQuality"), a.foodQuality⟩ (by simp [averagesList])
  have hneg : (-1 : ℚ) < q.2 :=
    lt_of_lt_of_le (by norm_num) (le_trans h0fq hfq_le)
  have htop : topCategoryOf (averagesList a) = q.1 := by
    unfold topCategoryOf
    rw [pickTopAux_eq, hq]
    simp [hneg]
  refine ⟨q, l1, l2, hdec, hmax, hfirst, ?_, rfl⟩
  show camelToLabel (topCategoryOf (averagesList a)) = camelToLabel q.1
  rw [htop]

/-- Schema-valid sample store for the top-category witness (the empty
store). -/
theorem getAnalytics_topCategory_witness :
    (storeValidB emptyStore = true) ∧
    ∃ (p : String × ℚ) (l1 l2 : List (String × ℚ)),
      averagesList (avgRatings (unwoundInWindow (windowStart Period.week 0)
          emptyStore))
        = l1 ++ p :: l2 ∧
      (∀ x ∈ averagesList
          (avgRatings (unwoundInWindow (windowStart Period.week 0) emptyStore)),
        x.2 ≤ p.2) ∧
      (∀ x ∈ l1, x.2 < p.2) ∧
      (getAnalytics Period.week 0 emptyStore).topCategory = camelToLabel p.1 ∧
      (averagesList (avgRatings (unwoundInWindow (windowStart Period.week 0)
          emptyStore))).map (fun q => camelToLabel q.1)
        = [("food quality"), ("food taste"), ("staff behavior"), ("hygiene"),
           ("ambience"), ("service speed")] :=
  ⟨rfl, getAnalytics_topCategory Period.week 0 emptyStore rfl⟩

/-- A mapped document keeps its stored visits (normalised) whenever the
stored `visits` array is non-empty; the legacy synthesis never fires. -/
theorem mapDocument_visits_of_ne_nil {d : FeedbackDoc} (now : Nat)
    (h : d.visits ≠ []) :
    (mapDocument now d).visits = d.visits.map mapVisit := by
  have he : d.visits.isEmpty = false := by simpa [List.isEmpty_iff] using h
  simp [mapDocument, he]

/-- Claim C3: with a date filter, the result set consists exactly of the
query-matching documents having at least one visit with that `dateKey`, each
with its visits narrowed to the filter date; the reported total is the size
of this already-filtered list and `data` its pagination slice; without a
date filter the total is the raw count of matching documents before
pagination. -/
theorem getFeedback_date_filter (now : Nat) (s : StoreState) (f : ListFilters)
    (dk : Nat) (hd : f.date = some dk) :
    (getFeedback now f s).total = (dateFilteredResults now dk f s).length ∧
    (getFeedback now f s).data
      = ((dateFilteredResults now dk f s).drop ((f.page - 1) * f.limit)).take
          f.limit ∧
    (∀ fb ∈ dateFilteredResults now dk f s, ∃ d,
      d ∈ s.feedbacks ∧ matchesQuery f d = true ∧
      (d.visits.any (fun v => v.dateKey == dk)) = true ∧
      fb = restrictVisits dk (mapDocument now d)) ∧
    (∀ d ∈ s.feedbacks, matchesQuery f d = true →
      restrictVisits dk (mapDocument now d) ∈ dateFilteredResults now dk f s) ∧
    (∀ fb ∈ (getFeedback now f s).data, ∀ v ∈ fb.visits, v.dateKey = dk) ∧
    (∀ f' : ListFilters, f'.date = none →
      (getFeedback now f' s).total
        = (s.feedbacks.filter (matchesQuery f')).length) := by
  have hdata : (getFeedback now f s).data
      = ((dateFilteredResults now dk f s).drop ((f.page - 1) * f.limit)).take
          f.limit := by
    simp [getFeedback, hd]
  refine ⟨by simp [getFeedback, hd], hdata, ?_, ?_, ?_, ?_⟩
  · intro fb hfb
    unfold dateFilteredResults at hfb
    obtain ⟨hmem, _⟩ := List.mem_filter.mp hfb
    obtain ⟨g, hg, rfl⟩ := List.mem_map.mp hmem
    unfold mappedResults at hg
    obtain ⟨d, hds, rfl⟩ := List.mem_map.mp hg
    unfold sortDocs at hds
    have hdm : d ∈ rawMatches f s := List.mem_mergeSort.mp hds
    unfold rawMatches at hdm
    obtain ⟨hdmem, hq⟩ := List.mem_filter.mp hdm
    have hb : (d.visits.any (fun v => v.dateKey == dk)) = true := by
      have hq' := hq
      unfold matchesQuery at hq'
      rw [hd, Bool.and_eq_true] at hq'
      exact hq'.2
    exact ⟨d, hdmem, hq, hb, rfl⟩
  · intro d hdmem hq
    have hb : (d.visits.any (fun v => v.dateKey == dk)) = true := by
      have hq' := hq
      unfold matchesQuery at hq'
      rw [hd, Bool.and_eq_true] at hq'
      exact hq'.2
    obtain ⟨v, hv, hvk⟩ := by simpa using List.any_eq_true.mp hb
    unfold dateFilteredResults
    refine List.mem_filter.mpr ⟨?_, ?_⟩
    · refine List.mem_map.mpr ⟨mapDocument now d, ?_, rfl⟩
      unfold mappedResults
      refine List.mem_map.mpr ⟨d, ?_, rfl⟩
      unfold sortDocs
      refine List.mem_mergeSort.mpr ?_
      unfold rawMatches
      exact List.mem_filter.mpr ⟨hdmem, hq⟩
    · have hmv : (restrictVisits dk (mapDocument now d)).visits
          = (d.visits.map mapVisit).filter (fun x => x.dateKey == dk) := by
        show ((mapDocument now d).visits).filter (fun x => x.dateKey == dk) = _
        rw [mapDocument_visits_of_ne_nil now (List.ne_nil_of_mem hv)]
      have hmem2 : mapVisit v ∈ (restrictVisits dk (mapDocument now d)).visits := by
        rw [hmv]
        refine List.mem_filter.mpr ⟨List.mem_map.mpr ⟨v, hv, rfl⟩, ?_⟩
        show (v.dateKey == dk) = true
        simp [hvk]
      have : (restrictVisits dk (mapDocument now d)).visits ≠ [] :=
        List.ne_nil_of_mem hmem2
      simpa using List.length_pos.mpr this
  · intro fb hfb v hv
    rw [hdata] at hfb
    have hfb1 : fb ∈ dateFilteredResults now dk f s :=
      List.drop_subset _ _ (List.take_subset _ _ hfb)
    unfold dateFilteredResults at hfb1
    obtain ⟨hmem, _⟩ := List.mem_filter.mp hfb1
    obtain ⟨g, _, rfl⟩ := List.mem_map.mp hmem
    have hv' : v ∈ g.visits.filter (fun x => x.dateKey == dk) := hv
    have := List.of_mem_filter hv'
    simpa using this
  · intro f' hd'
    simp [getFeedback, hd', rawMatches]

/-- Filters used by the date-filter witness: page 1, limit 20, date key 5. -/
def w3filters : ListFilters := ⟨1, 20, none, some 5, none⟩

theorem getFeedback_date_filter_witness :
    (w3filters.date = some 5) ∧
    ((getFeedback 0 w3filters c2store).total
        = (dateFilteredResults 0 5 w3filters c2store).length ∧
      (getFeedback 0 w3filters c2store).data
        = ((dateFilteredResults 0 5 w3filters c2store).drop
            ((w3filters.page - 1) * w3filters.limit)).take w3filters.limit ∧
      (∀ fb ∈ dateFilteredResults 0 5 w3filters c2store, ∃ d,
        d ∈ c2store.feedbacks ∧ matchesQuery w3filters d = true ∧
        (d.visits.any (fun v => v.dateKey == 5)) = true ∧
        fb = restrictVisits 5 (mapDocument 0 d)) ∧
      (∀ d ∈ c2store.feedbacks, matchesQuery w3filters d = true →
        restrictVisits 5 (mapDocument 0 d)
          ∈ dateFilteredResults 0 5 w3filters c2store) ∧
      (∀ fb ∈ (getFeedback 0 w3filters c2store).data, ∀ v ∈ fb.visits,
        v.dateKey = 5) ∧
      (∀ f' : ListFilters, f'.date = none →
        (getFeedback 0 f' c2store).total
          = (c2store.feedbacks.filter (matchesQuery f')).length)) :=
  ⟨rfl, getFeedback_date_filter 0 c2store w3filters 5 rfl⟩

end ShreeRath
